import Mathlib

/-!
Verification development for the emotion-detection core of this repository.

The embedding below translates, function by function, the algorithmic core of
`TensorFlowEmotionDetector` (base scoring, contextual adjustment, temporal
smoothing, confidence calibration, history bookkeeping, feature extraction's
edge counting), the `FaceExpressions` probability-vector wrapper, and the
`EmotionAnalysisEngine` fusion layer.  JavaScript numbers are modelled as
exact rationals (ℚ); arrays become lists; the mutable detector fields become
explicit state values threaded through the functions.
-/

namespace EmotionCore

/-- The closed seven-label affect set used throughout the detector. -/
inductive Emotion : Type
  | angry
  | disgusted
  | fearful
  | happy
  | neutral
  | sad
  | surprised
deriving DecidableEq, Repr, Inhabited, Fintype

/-- Order of the detector's `emotionLabels` array. -/
def emotionLabels : List Emotion :=
  [.angry, .disgusted, .fearful, .happy, .neutral, .sad, .surprised]

/-- The `EmotionScores` record of the source: one rational per label. -/
structure EmotionScores where
  angry : ℚ
  disgusted : ℚ
  fearful : ℚ
  happy : ℚ
  neutral : ℚ
  sad : ℚ
  surprised : ℚ
deriving DecidableEq, Repr, Inhabited

/-- Field lookup of an `EmotionScores` record by label. -/
def EmotionScores.get (s : EmotionScores) : Emotion → ℚ
  | .angry => s.angry
  | .disgusted => s.disgusted
  | .fearful => s.fearful
  | .happy => s.happy
  | .neutral => s.neutral
  | .sad => s.sad
  | .surprised => s.surprised

/-- Build an `EmotionScores` record from a per-label function (used for the
`Object.keys(...).forEach` bulk updates of the source). -/
def EmotionScores.ofFun (f : Emotion → ℚ) : EmotionScores :=
  ⟨f .angry, f .disgusted, f .fearful, f .happy, f .neutral, f .sad, f .surprised⟩

/-- `Object.values(scores).reduce((sum, s) => sum + s, 0)`. -/
def scoresTotal (s : EmotionScores) : ℚ :=
  (emotionLabels.map s.get).sum

/-- The normalization step shared by `generateBaseEmotionScores` and
`applyContextualAnalysis`: divide every entry by the total when the total is
positive, otherwise leave the record unchanged. -/
def normalizeScores (s : EmotionScores) : EmotionScores :=
  if 0 < scoresTotal s then .ofFun (fun e => s.get e / scoresTotal s) else s

/-- The `dominantColors` sub-record of the extracted features. -/
structure DominantColors where
  r : ℚ
  g : ℚ
  b : ℚ
deriving DecidableEq, Repr, Inhabited

/-- The fields of the feature object consumed by the scoring rules
(`generateBaseEmotionScores` / `applyContextualAnalysis`). -/
structure Features where
  brightness : ℚ
  contrast : ℚ
  edgeDensity : ℚ
  gradientMagnitude : ℚ
  faceBrightness : ℚ
  faceContrast : ℚ
  dominantColors : DominantColors
deriving DecidableEq, Repr, Inhabited

/-- `TensorFlowEmotionDetector.generateBaseEmotionScores`: uniform base 0.1,
fixed additive rule table, then normalization. -/
def generateBaseEmotionScores (f : Features) : EmotionScores :=
  let s0 : EmotionScores :=
    { neutral := 0.1, happy := 0.1, sad := 0.1, angry := 0.1,
      surprised := 0.1, fearful := 0.1, disgusted := 0.1 }
  let s1 :=
    if (0.6 : ℚ) < f.faceBrightness then
      { s0 with happy := s0.happy + 0.3, neutral := s0.neutral + 0.2 }
    else if f.faceBrightness < (0.4 : ℚ) then
      { s0 with sad := s0.sad + 0.25, neutral := s0.neutral + 0.15 }
    else
      { s0 with neutral := s0.neutral + 0.4 }
  let s2 :=
    if (0.5 : ℚ) < f.faceContrast then
      { s1 with surprised := s1.surprised + 0.2, angry := s1.angry + 0.15 }
    else s1
  let s3 :=
    if (0.4 : ℚ) < f.edgeDensity then
      { s2 with fearful := s2.fearful + 0.2, surprised := s2.surprised + 0.15 }
    else s2
  let s4 :=
    if (0.5 : ℚ) < f.dominantColors.r ∧ (0.3 : ℚ) < f.faceContrast then
      { s3 with angry := s3.angry + 0.2 }
    else s3
  let s5 :=
    if (0.3 : ℚ) < f.gradientMagnitude then
      { s4 with disgusted := s4.disgusted + 0.15, fearful := s4.fearful + 0.1 }
    else s4
  normalizeScores s5

/-- `TensorFlowEmotionDetector.applyContextualAnalysis`: multiplicative
contextual rules on a copy of the base scores, then normalization. -/
def applyContextualAnalysis (baseScores : EmotionScores) (f : Features) : EmotionScores :=
  let c1 :=
    if (0.7 : ℚ) < f.faceBrightness ∧ (0.4 : ℚ) < f.dominantColors.r then
      { baseScores with happy := baseScores.happy * 1.3, angry := baseScores.angry * 1.2 }
    else baseScores
  let c2 :=
    if (0.5 : ℚ) < f.faceContrast ∧ (0.3 : ℚ) < f.edgeDensity then
      { c1 with surprised := c1.surprised * 1.4, fearful := c1.fearful * 1.2 }
    else c1
  let c3 :=
    if f.brightness < (0.3 : ℚ) then
      { c2 with sad := c2.sad * 1.3, neutral := c2.neutral * 1.1 }
    else c2
  normalizeScores c3

/-- The smoothing window capacity (`bufferSize = 5`). -/
def bufferSize : Nat := 5

/-- The push/evict step at the top of `applySmoothingFilter`:
`push(currentScores)` then `shift()` once when the length exceeds capacity. -/
def pushSmoothing (buffer : List EmotionScores) (currentScores : EmotionScores) :
    List EmotionScores :=
  let b := buffer ++ [currentScores]
  if bufferSize < b.length then b.drop 1 else b

/-- The `forEach` accumulation of `applySmoothingFilter` for one label:
returns `(weightedSum, totalWeight)` with `weight = (index + 1) / length`. -/
def smoothWeighted (buffer : List EmotionScores) (e : Emotion) : ℚ × ℚ :=
  buffer.enum.foldl
    (fun acc p =>
      let weight : ℚ := ((p.1 : ℚ) + 1) / (buffer.length : ℚ)
      (acc.1 + p.2.get e * weight, acc.2 + weight))
    (0, 0)

/-- `TensorFlowEmotionDetector.applySmoothingFilter`: push into the window,
evict beyond capacity, then the recency-weighted average (or the input itself
when the window holds at most one entry).  Returns the smoothed scores
together with the new window. -/
def applySmoothingFilter (buffer : List EmotionScores) (currentScores : EmotionScores) :
    EmotionScores × List EmotionScores :=
  let b := pushSmoothing buffer currentScores
  if 1 < b.length then
    (.ofFun (fun e => (smoothWeighted b e).1 / (smoothWeighted b e).2), b)
  else
    (currentScores, b)

/-- The `FacialFeatures` record attached to history entries. -/
structure FacialFeatures where
  eyeOpenness : ℚ
  mouthCurvature : ℚ
  eyebrowPosition : ℚ
  jawTension : ℚ
  cheekRaise : ℚ
  noseScrunch : ℚ
deriving DecidableEq, Repr, Inhabited

/-- One `EmotionHistory` entry (label kept as a string, as in the source). -/
structure EmotionHistoryEntry where
  emotion : String
  confidence : ℚ
  timestamp : ℚ
  features : FacialFeatures
deriving DecidableEq, Repr, Inhabited

/-- The history capacity (`maxHistorySize = 100`). -/
def maxHistorySize : Nat := 100

/-- `TensorFlowEmotionDetector.updateEmotionHistory`: push the new entry and
`shift()` once when the length exceeds the capacity. -/
def updateEmotionHistory (history : List EmotionHistoryEntry)
    (entry : EmotionHistoryEntry) : List EmotionHistoryEntry :=
  let h := history ++ [entry]
  if maxHistorySize < h.length then h.drop 1 else h

/-- The detector's `confidenceThreshold`. -/
def confidenceThreshold : ℚ := 0.6

/-- `TensorFlowEmotionDetector.calculateStabilityBonus`: zero below five
entries, otherwise the share of the last five entries matching the most
recent entry's label, scaled by 0.1. -/
def calculateStabilityBonus (history : List EmotionHistoryEntry) : ℚ :=
  if history.length < 5 then 0
  else
    let recentEmotions := history.drop (history.length - 5)
    let dominantEmotion := (recentEmotions.getD (recentEmotions.length - 1) default).emotion
    let sameEmotionCount :=
      (recentEmotions.filter (fun h => h.emotion == dominantEmotion)).length
    ((sameEmotionCount : ℚ) / 5) * 0.1

/-- `Object.values(scores).sort((a, b) => b - a)`: the seven score values in
descending order. -/
def sortedScoresDesc (s : EmotionScores) : List ℚ :=
  (emotionLabels.map s.get).mergeSort (fun a b => b ≤ a)

/-- `TensorFlowEmotionDetector.adjustConfidence`. -/
def adjustConfidence (rawConfidence : ℚ) (scores : EmotionScores)
    (history : List EmotionHistoryEntry) : ℚ :=
  let sorted := sortedScoresDesc scores
  let gap := sorted.getD 0 0 - sorted.getD 1 0
  let gapBonus := gap * 0.3
  let stabilityBonus := calculateStabilityBonus history
  let adjusted := rawConfidence + gapBonus + stabilityBonus
  let thresholded :=
    if adjusted < confidenceThreshold then max 0.3 (adjusted * 0.8) else adjusted
  max 0.1 (min 0.95 thresholded)

/-- `Object.entries(smoothedScores)` in the record-literal key order of the
source (`neutral, happy, sad, angry, surprised, fearful, disgusted`). -/
def detectEntries (s : EmotionScores) : List (String × ℚ) :=
  [("neutral", s.neutral), ("happy", s.happy), ("sad", s.sad), ("angry", s.angry),
   ("surprised", s.surprised), ("fearful", s.fearful), ("disgusted", s.disgusted)]

/-- The `forEach` maximum search of `detectEmotion`: start from
`maxProb = 0`, `dominantEmotion = 'neutral'`, replace on a strictly greater
score. -/
def dominantOf (s : EmotionScores) : String × ℚ :=
  (detectEntries s).foldl (fun acc p => if acc.2 < p.2 then p else acc) ("neutral", 0)

/-- Confidence calibration as invoked by `detectEmotion`: the raw confidence
is the `forEach` maximum of the smoothed scores. -/
def calibratedConfidence (smoothed : EmotionScores)
    (history : List EmotionHistoryEntry) : ℚ :=
  adjustConfidence (dominantOf smoothed).2 smoothed history

/-- Modelled from the spec wording of the calibration claim: `rawConfidence`
is the maximum score, `gapBonus = (highest − second highest) × 0.3`,
`stabilityBonus` as in §4.6, `adjusted` folded below the 0.6 threshold, and a
final clamp to `[0.1, 0.95]`.  Used as the comparison point for C2. -/
def specCalibratedConfidence (smoothed : EmotionScores)
    (history : List EmotionHistoryEntry) : ℚ :=
  let rawConfidence :=
    match emotionLabels.map smoothed.get with
    | [] => 0
    | v :: vs => vs.foldl max v
  let sorted := sortedScoresDesc smoothed
  let gapBonus := (sorted.getD 0 0 - sorted.getD 1 0) * 0.3
  let stabilityBonus := calculateStabilityBonus history
  let adjusted := rawConfidence + gapBonus + stabilityBonus
  let thresholded := if adjusted < 0.6 then max 0.3 (adjusted * 0.8) else adjusted
  max 0.1 (min 0.95 thresholded)

/-- A nonnegative probability distribution over the seven labels, the
`ClassScores` invariant of the spec. -/
def IsDistribution (s : EmotionScores) : Prop :=
  (∀ e, 0 ≤ s.get e) ∧ scoresTotal s = 1

/-! ### `FaceExpressions` (external estimator's raw probability vector) -/

/-- `FACE_EXPRESSION_LABELS` of the source, in declaration order. -/
def faceExpressionLabels : List String :=
  ["neutral", "happy", "sad", "angry", "fearful", "disgusted", "surprised"]

/-- The `FaceExpressions` class fields, in source declaration order. -/
structure FaceExpressions where
  neutral : ℚ
  happy : ℚ
  sad : ℚ
  angry : ℚ
  fearful : ℚ
  disgusted : ℚ
  surprised : ℚ
deriving DecidableEq, Repr, Inhabited

/-- Property access `this[expression]` for a `FaceExpressions` value. -/
def FaceExpressions.prob (t : FaceExpressions) (lbl : String) : ℚ :=
  if lbl = "neutral" then t.neutral
  else if lbl = "happy" then t.happy
  else if lbl = "sad" then t.sad
  else if lbl = "angry" then t.angry
  else if lbl = "fearful" then t.fearful
  else if lbl = "disgusted" then t.disgusted
  else if lbl = "surprised" then t.surprised
  else 0

/-- The `FaceExpressions` constructor: it throws unless the probability array
has length exactly 7, otherwise it assigns `this[label] := probabilities[idx]`
following `FACE_EXPRESSION_LABELS`.  The throw is modelled as `Except.error`
with the source's message text. -/
def FaceExpressions.make (probabilities : List ℚ) : Except String FaceExpressions :=
  if probabilities.length ≠ 7 then
    .error ("FaceExpressions.constructor - expected probabilities.length to be 7, have: "
      ++ toString probabilities.length)
  else
    .ok
      { neutral := probabilities.getD 0 0
        happy := probabilities.getD 1 0
        sad := probabilities.getD 2 0
        angry := probabilities.getD 3 0
        fearful := probabilities.getD 4 0
        disgusted := probabilities.getD 5 0
        surprised := probabilities.getD 6 0 }

/-- `FaceExpressions.getDominantExpression`: `asSortedArray` sorts the seven
`(label, probability)` pairs by descending probability with JavaScript's
stable sort and takes the head, i.e. the first label in
`FACE_EXPRESSION_LABELS` order attaining the maximum probability.  The fold
below keeps the earliest entry and replaces it only on a strictly greater
probability, which is exactly that head. -/
def FaceExpressions.getDominantExpression (t : FaceExpressions) : String × ℚ :=
  (["happy", "sad", "angry", "fearful", "disgusted", "surprised"]).foldl
    (fun best lbl => if best.2 < t.prob lbl then (lbl, t.prob lbl) else best)
    ("neutral", t.neutral)

/-! ### Fusion layer (`EmotionAnalysisEngine`) -/

/-- The MediaPipe-side score record (`EmotionState.scores`); note the
`disgust` spelling of its label space. -/
structure MPScores where
  neutral : ℚ
  happy : ℚ
  sad : ℚ
  angry : ℚ
  surprised : ℚ
  fearful : ℚ
  disgust : ℚ
deriving DecidableEq, Repr, Inhabited

/-- The `EmotionState` record (presentation-only `icon` and `timestamp`
fields omitted; no claim mentions them). -/
structure EmotionState where
  dominant : String
  confidence : ℚ
  scores : MPScores
deriving DecidableEq, Repr, Inhabited

/-- Reliability tiers of `EmotionAnalysisResult`. -/
inductive Reliability : Type
  | high
  | medium
  | low
deriving DecidableEq, Repr, Inhabited

/-- `EmotionAnalysisEngine.getReliabilityLevel`. -/
def getReliabilityLevel (confidence : ℚ) : Reliability :=
  if (0.8 : ℚ) ≤ confidence then .high
  else if (0.6 : ℚ) ≤ confidence then .medium
  else .low

/-- `EmotionAnalysisEngine.createEmotionMapping` applied to a label, with the
`|| 'neutral'` fallback for a key outside the dictionary. -/
def emotionMapping (lbl : String) : String :=
  if lbl = "happy" then "happy"
  else if lbl = "sad" then "sad"
  else if lbl = "angry" then "angry"
  else if lbl = "fearful" then "fearful"
  else if lbl = "disgusted" then "disgust"
  else if lbl = "surprised" then "surprised"
  else if lbl = "neutral" then "neutral"
  else "neutral"

/-- `EmotionAnalysisEngine.createEmotionStateFromTensorFlow`. -/
def createEmotionStateFromTensorFlow (t : FaceExpressions) : EmotionState :=
  let dominant := t.getDominantExpression
  { dominant := emotionMapping dominant.1
    confidence := dominant.2
    scores :=
      { neutral := t.neutral, happy := t.happy, sad := t.sad, angry := t.angry,
        surprised := t.surprised, fearful := t.fearful, disgust := t.disgusted } }

/-- `EmotionAnalysisEngine.blendEmotionStates`: 0.6/0.4 blend of the two
score sets, then the argmax fold (`reduce` starting from
`(neutral, 0)`, replacing on a strictly greater score, in the blended
record's literal key order). -/
def blendEmotionStates (mp : EmotionState) (t : FaceExpressions) : EmotionState :=
  let mpWeight : ℚ := 0.6
  let tfWeight : ℚ := 0.4
  let blended : MPScores :=
    { neutral := mp.scores.neutral * mpWeight + t.neutral * tfWeight
      happy := mp.scores.happy * mpWeight + t.happy * tfWeight
      sad := mp.scores.sad * mpWeight + t.sad * tfWeight
      angry := mp.scores.angry * mpWeight + t.angry * tfWeight
      surprised := mp.scores.surprised * mpWeight + t.surprised * tfWeight
      fearful := mp.scores.fearful * mpWeight + t.fearful * tfWeight
      disgust := mp.scores.disgust * mpWeight + t.disgusted * tfWeight }
  let dominant :=
    [("neutral", blended.neutral), ("happy", blended.happy), ("sad", blended.sad),
     ("angry", blended.angry), ("surprised", blended.surprised),
     ("fearful", blended.fearful), ("disgust", blended.disgust)].foldl
      (fun best p => if best.2 < p.2 then p else best) ("neutral", 0)
  { dominant := dominant.1, confidence := dominant.2, scores := blended }

/-- The `EmotionAnalysisResult` record. -/
structure EmotionAnalysisResult where
  primary : EmotionState
  secondary : Option EmotionState
  confidence : ℚ
  reliability : Reliability
  sourceMediapipe : Bool
  sourceTensorflow : Bool
deriving DecidableEq, Repr, Inhabited

/-- `EmotionAnalysisEngine.analyzeEmotions`, the fusion entry point. -/
def analyzeEmotions (mediapipeEmotion : EmotionState)
    (tensorflowEmotion : Option FaceExpressions) : EmotionAnalysisResult :=
  match tensorflowEmotion with
  | none =>
    { primary := mediapipeEmotion
      secondary := none
      confidence := mediapipeEmotion.confidence
      reliability := getReliabilityLevel mediapipeEmotion.confidence
      sourceMediapipe := true
      sourceTensorflow := false }
  | some t =>
    let base : EmotionAnalysisResult :=
      { primary := mediapipeEmotion
        secondary := none
        confidence := mediapipeEmotion.confidence
        reliability := .low
        sourceMediapipe := true
        sourceTensorflow := true }
    let tfDominant := t.getDominantExpression
    let tfMappedEmotion := emotionMapping tfDominant.1
    if mediapipeEmotion.dominant = tfMappedEmotion then
      let conf := min ((mediapipeEmotion.confidence + tfDominant.2) / 2 + 0.15) 1
      { base with confidence := conf, reliability := getReliabilityLevel conf }
    else
      let confidenceDiff := |mediapipeEmotion.confidence - tfDominant.2|
      if (0.3 : ℚ) < confidenceDiff then
        let conf := max mediapipeEmotion.confidence tfDominant.2
        if mediapipeEmotion.confidence < tfDominant.2 then
          { base with
              primary := createEmotionStateFromTensorFlow t
              secondary := some mediapipeEmotion
              confidence := conf
              reliability := getReliabilityLevel (conf * 0.8) }
        else
          { base with
              confidence := conf
              reliability := getReliabilityLevel (conf * 0.8) }
      else
        let conf := mediapipeEmotion.confidence * 0.6 + tfDominant.2 * 0.4
        { base with
            primary := blendEmotionStates mediapipeEmotion t
            confidence := conf
            reliability := getReliabilityLevel (conf * 0.8) }

/-! ### Frame model and edge counting (`extractAdvancedFeatures`) -/

/-- A frame: dimensions plus the interleaved RGBA byte buffer, indexed as in
the source (`(y * width + x) * 4 + channel`).  The buffer is modelled as a
total function so that any frame size can be expressed. -/
structure Frame where
  width : Nat
  height : Nat
  data : Nat → ℚ

/-- The red-channel byte of pixel `(x, y)` — the only channel the gradient
code reads. -/
def px (f : Frame) (x y : Nat) : ℚ :=
  f.data ((y * f.width + x) * 4)

/-- The horizontal Sobel response `gx` of `extractAdvancedFeatures`. -/
def sobelGx (f : Frame) (x y : Nat) : ℚ :=
  px f (x + 1) (y - 1) - px f (x - 1) (y - 1)
    + 2 * px f (x + 1) y - 2 * px f (x - 1) y
    + px f (x + 1) (y + 1) - px f (x - 1) (y + 1)

/-- The vertical Sobel response `gy` of `extractAdvancedFeatures`. -/
def sobelGy (f : Frame) (x y : Nat) : ℚ :=
  px f (x - 1) (y - 1) - px f (x - 1) (y + 1)
    + 2 * px f x (y - 1) - 2 * px f x (y + 1)
    + px f (x + 1) (y - 1) - px f (x + 1) (y + 1)

/-- `gx * gx + gy * gy`, the square of the gradient magnitude. -/
def gradSq (f : Frame) (x y : Nat) : ℚ :=
  sobelGx f x y ^ 2 + sobelGy f x y ^ 2

/-- The edge test of the source is `Math.sqrt(gx*gx + gy*gy) > 30`.  Both
sides are nonnegative, so squaring gives the equivalent executable test
`gx^2 + gy^2 > 900` used here; the claim theorem re-establishes the
square-root form. -/
def isEdgePixel (f : Frame) (x y : Nat) : Bool :=
  decide (900 < gradSq f x y)

/-- The interior pixels `(x, y)` visited by the gradient loops:
`1 ≤ y ≤ height − 2` outer, `1 ≤ x ≤ width − 2` inner. -/
def interiorPixels (f : Frame) : List (Nat × Nat) :=
  (List.range' 1 (f.height - 2)).flatMap
    (fun y => (List.range' 1 (f.width - 2)).map (fun x => (x, y)))

/-- The interior pixels that increment `edgeCount`. -/
def edgePixels (f : Frame) : List (Nat × Nat) :=
  (interiorPixels f).filter (fun p => isEdgePixel f p.1 p.2)

/-- The `edgeCount` accumulator of `extractAdvancedFeatures`. -/
def edgeCount (f : Frame) : Nat :=
  (edgePixels f).length

/-! ### Detector state and `detectEmotion` (steady state) -/

/-- An `EmotionPrediction` as returned by `detectEmotion`: exactly the three
fields of the source interface. -/
structure EmotionPrediction where
  emotion : String
  confidence : ℚ
  timestamp : ℚ
deriving DecidableEq, Repr, Inhabited

/-- The mutable fields of `TensorFlowEmotionDetector` that steady-state
classification touches. -/
structure DetectorState where
  smoothingBuffer : List EmotionScores
  emotionHistory : List EmotionHistoryEntry
  frameCount : Nat
  lastEmotionScores : Option EmotionScores
deriving DecidableEq, Repr, Inhabited

/-- The detector state at construction. -/
def initialDetectorState : DetectorState :=
  { smoothingBuffer := [], emotionHistory := [], frameCount := 0,
    lastEmotionScores := none }

/-- Steady-state `detectEmotion` (the detector already initialized).  The
image-analysis stage (`analyzeImageForEmotions` + `extractFacialFeatures`)
is the part that can fault inside the `try` block, so its outcome is an
explicit `Except` input; the `catch` branch returns the fixed
`neutral / 0.5` prediction.  (`frameCount += 1` runs before the faulting
stage, so it is incremented on both paths.)  The function is total: every
input yields a prediction. -/
def detectEmotion (st : DetectorState)
    (analysis : Except String (EmotionScores × FacialFeatures)) (now : ℚ) :
    EmotionPrediction × DetectorState :=
  match analysis with
  | .error _ =>
    ({ emotion := "neutral", confidence := 0.5, timestamp := now },
      { st with frameCount := st.frameCount + 1 })
  | .ok (emotionScores, facialFeatures) =>
    let smoothResult := applySmoothingFilter st.smoothingBuffer emotionScores
    let smoothedScores := smoothResult.1
    let dm := dominantOf smoothedScores
    let adjustedConfidence := adjustConfidence dm.2 smoothedScores st.emotionHistory
    let prediction : EmotionPrediction :=
      { emotion := dm.1, confidence := adjustedConfidence, timestamp := now }
    let newHistory := updateEmotionHistory st.emotionHistory
      { emotion := prediction.emotion, confidence := prediction.confidence,
        timestamp := prediction.timestamp, features := facialFeatures }
    (prediction,
      { smoothingBuffer := smoothResult.2
        emotionHistory := newHistory
        frameCount := st.frameCount + 1
        lastEmotionScores := some smoothedScores })

/-! ### Heap model for `getEmotionHistory`'s copy semantics -/

/-- Array references: indices into a small heap of history arrays.  This
models JavaScript aliasing: `return this.emotionHistory` would return the
detector's own reference, while the source's `return [...this.emotionHistory]`
allocates a fresh array holding copies of the entries. -/
abbrev HRef : Type := Nat

/-- The heap of allocated history arrays. -/
abbrev Heap : Type := List (List EmotionHistoryEntry)

/-- Dereference (a dangling reference reads as the empty array). -/
def readRef (h : Heap) (r : HRef) : List EmotionHistoryEntry :=
  h.getD r []

/-- The detector's reference cell for `this.emotionHistory`. -/
structure DetectorRefState where
  historyRef : HRef
deriving DecidableEq, Repr, Inhabited

/-- `getEmotionHistory(): return [...this.emotionHistory]` — allocate a fresh
array at the end of the heap, copy the buffer's contents into it, and return
the fresh reference; the detector state is untouched. -/
def getEmotionHistory (st : DetectorRefState) (h : Heap) :
    HRef × DetectorRefState × Heap :=
  (h.length, st, h ++ [readRef h st.historyRef])

/-- A caller-side mutation of an array it holds a reference to:
`arr.push(entry)`. -/
def pushRef (h : Heap) (r : HRef) (entry : EmotionHistoryEntry) : Heap :=
  h.set r (readRef h r ++ [entry])

/-- A caller-side mutation of an array it holds a reference to:
`arr.pop()`. -/
def popRef (h : Heap) (r : HRef) : Heap :=
  h.set r (readRef h r).dropLast

/-! ### Concrete sample values used by witnesses and counterexamples -/

/-- The uniform distribution over the seven labels. -/
def uniformScores : EmotionScores :=
  ⟨1/7, 1/7, 1/7, 1/7, 1/7, 1/7, 1/7⟩

/-- A sample feature vector (all features 1/2, mid-range). -/
def sampleFeatures : Features :=
  { brightness := 1/2, contrast := 1/2, edgeDensity := 1/2, gradientMagnitude := 1/2,
    faceBrightness := 1/2, faceContrast := 1/2, dominantColors := ⟨1/2, 1/2, 1/2⟩ }

/-- 150 distinct history entries (timestamps 0, 1, …, 149). -/
def sampleEntries : List EmotionHistoryEntry :=
  (List.range 150).map (fun (i : Nat) => ⟨"neutral", 0, (i : ℚ), default⟩)

/-- A 3×3 frame whose red channel is 7.5 in the rightmost column and 0
elsewhere: the Sobel response at the single interior pixel (1, 1) is
`gx = 30`, `gy = 0`, so the gradient magnitude is exactly 30. -/
def frameA : Frame :=
  { width := 3, height := 3,
    data := fun idx => if idx % 4 = 0 ∧ (idx / 4) % 3 = 2 then 15/2 else 0 }

/-- Like `frameA` scaled by 300001/300000: the gradient magnitude at (1, 1)
is exactly 30.0001. -/
def frameB : Frame :=
  { width := 3, height := 3,
    data := fun idx => if idx % 4 = 0 ∧ (idx / 4) % 3 = 2 then 300001/40000 else 0 }

/-! ## Helper lemmas -/

theorem get_ofFun (f : Emotion → ℚ) (e : Emotion) : (EmotionScores.ofFun f).get e = f e := by
  cases e <;> rfl

theorem scoresTotal_eq (s : EmotionScores) :
    scoresTotal s = s.get .angry + s.get .disgusted + s.get .fearful + s.get .happy
      + s.get .neutral + s.get .sad + s.get .surprised := by
  simp only [scoresTotal, emotionLabels, List.map_cons, List.map_nil, List.sum_cons,
    List.sum_nil]
  ring

theorem scoresTotal_fields (s : EmotionScores) :
    scoresTotal s = s.angry + s.disgusted + s.fearful + s.happy + s.neutral + s.sad
      + s.surprised := by
  rw [scoresTotal_eq]; rfl

theorem isDistribution_normalize (s : EmotionScores) (hn : ∀ e, 0 ≤ s.get e)
    (hpos : 0 < scoresTotal s) : IsDistribution (normalizeScores s) := by
  have hne : scoresTotal s ≠ 0 := ne_of_gt hpos
  constructor
  · intro e
    rw [normalizeScores, if_pos hpos, get_ofFun]
    exact div_nonneg (hn e) (le_of_lt hpos)
  · rw [normalizeScores, if_pos hpos]
    have h1 : scoresTotal (EmotionScores.ofFun fun e => s.get e / scoresTotal s)
        = (s.get .angry + s.get .disgusted + s.get .fearful + s.get .happy
            + s.get .neutral + s.get .sad + s.get .surprised) / scoresTotal s := by
      rw [scoresTotal_eq]
      simp only [get_ofFun]
      ring
    rw [h1, ← scoresTotal_eq, div_self hne]

set_option maxHeartbeats 4000000 in
theorem generateBase_isDistribution (f : Features) :
    IsDistribution (generateBaseEmotionScores f) := by
  rw [generateBaseEmotionScores]
  apply isDistribution_normalize
  · intro e
    split_ifs <;> cases e <;> norm_num [EmotionScores.get]
  · rw [scoresTotal_fields]
    split_ifs <;> norm_num

theorem contextual_isDistribution (baseScores : EmotionScores) (f : Features)
    (hb : IsDistribution baseScores) : IsDistribution (applyContextualAnalysis baseScores f) := by
  obtain ⟨hn, ht⟩ := hb
  have h1 : 0 ≤ baseScores.angry := hn .angry
  have h2 : 0 ≤ baseScores.disgusted := hn .disgusted
  have h3 : 0 ≤ baseScores.fearful := hn .fearful
  have h4 : 0 ≤ baseScores.happy := hn .happy
  have h5 : 0 ≤ baseScores.neutral := hn .neutral
  have h6 : 0 ≤ baseScores.sad := hn .sad
  have h7 : 0 ≤ baseScores.surprised := hn .surprised
  rw [scoresTotal_fields] at ht
  rw [applyContextualAnalysis]
  apply isDistribution_normalize
  · intro e
    split_ifs <;> cases e <;> simp only [EmotionScores.get] <;> linarith
  · split_ifs <;> rw [scoresTotal_fields] <;> (try dsimp only) <;> linarith

theorem foldl_pair_sum (l : List (Nat × EmotionScores)) (g h : Nat × EmotionScores → ℚ)
    (a b : ℚ) :
    l.foldl (fun acc p => (acc.1 + g p, acc.2 + h p)) (a, b)
      = (a + (l.map g).sum, b + (l.map h).sum) := by
  induction l generalizing a b with
  | nil => simp
  | cons hd tl ih =>
    simp only [List.foldl_cons, List.map_cons, List.sum_cons, ih, Prod.mk.injEq]
    constructor <;> ring

theorem sum_map_enumFrom (l : List EmotionScores) (d : EmotionScores) (k : Nat)
    (g : Nat → EmotionScores → ℚ) :
    ((l.enumFrom k).map (fun p => g p.1 p.2)).sum
      = ((List.range l.length).map (fun (i : Nat) => g (k + i) (l.getD i d))).sum := by
  induction l generalizing k with
  | nil => simp
  | cons a t ih =>
    simp only [List.enumFrom, List.map_cons, List.sum_cons, List.length_cons,
      List.range_succ_eq_map, List.map_map]
    rw [ih (k + 1)]
    congr 1
    apply congrArg
    apply List.map_congr_left
    intro i hi
    simp only [Function.comp_apply, Nat.succ_eq_add_one, List.getD_eq_getElem?_getD,
      List.getElem?_cons_succ]
    have hk : k + 1 + i = k + (i + 1) := by omega
    rw [hk]

theorem smoothWeighted_eq (buffer : List EmotionScores) (e : Emotion) :
    smoothWeighted buffer e =
      (((List.range buffer.length).map (fun (i : Nat) =>
          (buffer.getD i default).get e * (((i : ℚ) + 1) / (buffer.length : ℚ)))).sum,
       ((List.range buffer.length).map (fun (i : Nat) =>
          ((i : ℚ) + 1) / (buffer.length : ℚ))).sum) := by
  rw [smoothWeighted]
  try dsimp only
  rw [foldl_pair_sum]
  refine Prod.ext ?_ ?_
  · simpa using sum_map_enumFrom buffer default 0
      (fun i x => x.get e * (((i : ℚ) + 1) / (buffer.length : ℚ)))
  · simpa using sum_map_enumFrom buffer default 0
      (fun i _ => ((i : ℚ) + 1) / (buffer.length : ℚ))

theorem totalWeight_pos (n : Nat) (hn : 1 ≤ n) :
    0 < ((List.range n).map (fun (i : Nat) => ((i : ℚ) + 1) / (n : ℚ))).sum := by
  have hn0 : (0 : ℚ) < (n : ℚ) := by exact_mod_cast hn
  apply List.sum_pos
  · intro x hx
    simp only [List.mem_map] at hx
    obtain ⟨i, _, rfl⟩ := hx
    have hi : (0 : ℚ) ≤ (i : ℚ) := Nat.cast_nonneg i
    exact div_pos (by linarith) hn0
  · apply List.ne_nil_of_length_pos
    simp only [List.length_map, List.length_range]
    omega

theorem list_sum_map_add {α : Type} (l : List α) (f g : α → ℚ) :
    (l.map f).sum + (l.map g).sum = (l.map (fun x => f x + g x)).sum := by
  induction l with
  | nil => simp
  | cons hd tl ih =>
    simp only [List.map_cons, List.sum_cons, ← ih]
    ring

theorem mem_pushSmoothing (buffer : List EmotionScores) (cur s : EmotionScores)
    (hs : s ∈ pushSmoothing buffer cur) : s ∈ buffer ∨ s = cur := by
  rw [pushSmoothing] at hs
  try dsimp only at hs
  have hs2 : s ∈ buffer ++ [cur] := by
    split at hs
    · exact List.mem_of_mem_drop hs
    · exact hs
  rcases List.mem_append.mp hs2 with h | h
  · exact Or.inl h
  · exact Or.inr (by simpa using h)

theorem smoothOutput_isDistribution (b : List EmotionScores)
    (hbm : ∀ s ∈ b, IsDistribution s) (hlen : 1 < b.length) :
    IsDistribution (EmotionScores.ofFun
      (fun e => (smoothWeighted b e).1 / (smoothWeighted b e).2)) := by
  have hTW : 0 < ((List.range b.length).map
      (fun (i : Nat) => ((i : ℚ) + 1) / (b.length : ℚ))).sum :=
    totalWeight_pos _ (by omega)
  have hmemD : ∀ i ∈ List.range b.length, b.getD i default ∈ b := by
    intro i hi
    have hib : i < b.length := List.mem_range.mp hi
    rw [List.getD_eq_getElem _ _ hib]
    exact List.getElem_mem hib
  constructor
  · intro e
    rw [get_ofFun, smoothWeighted_eq]
    try dsimp only
    apply div_nonneg
    · apply List.sum_nonneg
      intro x hx
      simp only [List.mem_map] at hx
      obtain ⟨i, hi, rfl⟩ := hx
      apply mul_nonneg ((hbm _ (hmemD i hi)).1 e)
      have hcast : (0 : ℚ) ≤ (i : ℚ) := Nat.cast_nonneg i
      apply div_nonneg (by linarith) (Nat.cast_nonneg b.length)
    · exact le_of_lt hTW
  · rw [scoresTotal_eq]
    simp only [get_ofFun, smoothWeighted_eq]
    try dsimp only
    rw [div_add_div_same, div_add_div_same, div_add_div_same, div_add_div_same,
      div_add_div_same, div_add_div_same, div_eq_one_iff_eq (ne_of_gt hTW)]
    rw [list_sum_map_add, list_sum_map_add, list_sum_map_add, list_sum_map_add,
      list_sum_map_add, list_sum_map_add]
    apply congrArg
    apply List.map_congr_left
    intro i hi
    have hdist := hbm _ (hmemD i hi)
    have hsum : (b.getD i default).get .angry + (b.getD i default).get .disgusted
        + (b.getD i default).get .fearful + (b.getD i default).get .happy
        + (b.getD i default).get .neutral + (b.getD i default).get .sad
        + (b.getD i default).get .surprised = 1 := by
      rw [← scoresTotal_eq]; exact hdist.2
    calc (b.getD i default).get .angry * (((i : ℚ) + 1) / (b.length : ℚ))
        + (b.getD i default).get .disgusted * (((i : ℚ) + 1) / (b.length : ℚ))
        + (b.getD i default).get .fearful * (((i : ℚ) + 1) / (b.length : ℚ))
        + (b.getD i default).get .happy * (((i : ℚ) + 1) / (b.length : ℚ))
        + (b.getD i default).get .neutral * (((i : ℚ) + 1) / (b.length : ℚ))
        + (b.getD i default).get .sad * (((i : ℚ) + 1) / (b.length : ℚ))
        + (b.getD i default).get .surprised * (((i : ℚ) + 1) / (b.length : ℚ))
        = ((b.getD i default).get .angry + (b.getD i default).get .disgusted
            + (b.getD i default).get .fearful + (b.getD i default).get .happy
            + (b.getD i default).get .neutral + (b.getD i default).get .sad
            + (b.getD i default).get .surprised) * (((i : ℚ) + 1) / (b.length : ℚ)) := by
          ring
      _ = ((i : ℚ) + 1) / (b.length : ℚ) := by rw [hsum, one_mul]

theorem smoothing_isDistribution (buffer : List EmotionScores) (cur : EmotionScores)
    (hbuf : ∀ s ∈ buffer, IsDistribution s) (hcur : IsDistribution cur) :
    IsDistribution (applySmoothingFilter buffer cur).1 := by
  have hbm : ∀ s ∈ pushSmoothing buffer cur, IsDistribution s := by
    intro s hs
    rcases mem_pushSmoothing buffer cur s hs with h | h
    · exact hbuf s h
    · rw [h]; exact hcur
  rw [applySmoothingFilter]
  try dsimp only
  by_cases h1 : 1 < (pushSmoothing buffer cur).length
  · rw [if_pos h1]
    exact smoothOutput_isDistribution _ hbm h1
  · rw [if_neg h1]
    exact hcur

/-! ## Claim theorems -/

/-- Claim C1: every `ClassScores` value returned by the base scorer
(`generateBaseEmotionScores`, for every feature vector), the contextual
adjuster (`applyContextualAnalysis`, on any distribution input), or the
temporal smoother (`applySmoothingFilter`, for any window whose entries are
distributions — which covers every reachable window state — and any
distribution input) has all seven values nonnegative with their sum equal to
1 within `1e-6`. -/
theorem claim_C1 (f : Features) (baseScores cur : EmotionScores)
    (buffer : List EmotionScores)
    (hbase : IsDistribution baseScores)
    (hbuf : ∀ s ∈ buffer, IsDistribution s)
    (hcur : IsDistribution cur) :
    ((∀ e, 0 ≤ (generateBaseEmotionScores f).get e)
      ∧ |scoresTotal (generateBaseEmotionScores f) - 1| ≤ 1 / 1000000)
    ∧ ((∀ e, 0 ≤ (applyContextualAnalysis baseScores f).get e)
      ∧ |scoresTotal (applyContextualAnalysis baseScores f) - 1| ≤ 1 / 1000000)
    ∧ ((∀ e, 0 ≤ (applySmoothingFilter buffer cur).1.get e)
      ∧ |scoresTotal (applySmoothingFilter buffer cur).1 - 1| ≤ 1 / 1000000) := by
  have h1 := generateBase_isDistribution f
  have h2 := contextual_isDistribution baseScores f hbase
  have h3 := smoothing_isDistribution buffer cur hbuf hcur
  refine ⟨⟨h1.1, ?_⟩, ⟨h2.1, ?_⟩, ⟨h3.1, ?_⟩⟩
  · rw [h1.2]; norm_num
  · rw [h2.2]; norm_num
  · rw [h3.2]; norm_num

/-- Witness for C1: the smoothing conjunct of `claim_C1` evaluated at the
uniform distribution and a one-entry window. -/
theorem claim_C1_witness :
    (∀ e, 0 ≤ (applySmoothingFilter [uniformScores] uniformScores).1.get e)
    ∧ |scoresTotal (applySmoothingFilter [uniformScores] uniformScores).1 - 1|
        ≤ 1 / 1000000 := by
  have hu : IsDistribution uniformScores := by
    constructor
    · intro e
      cases e <;> norm_num [EmotionScores.get, uniformScores]
    · norm_num [scoresTotal_fields, uniformScores]
  have hbuf : ∀ s ∈ [uniformScores], IsDistribution s := by
    intro s hs
    rw [List.mem_singleton] at hs
    rw [hs]
    exact hu
  exact (claim_C1 sampleFeatures uniformScores uniformScores [uniformScores]
    hu hbuf hu).2.2

/-- The second component of the `forEach` maximum fold is a plain `max`
fold. -/
theorem foldl_dom_snd (l : List (String × ℚ)) (a : String × ℚ) :
    (l.foldl (fun acc p => if acc.2 < p.2 then p else acc) a).2
      = l.foldl (fun m p => max m p.2) a.2 := by
  induction l generalizing a with
  | nil => rfl
  | cons hd tl ih =>
    rw [List.foldl_cons, List.foldl_cons, ih]
    congr 1
    split
    · exact (max_eq_right (le_of_lt (by assumption))).symm
    · exact (max_eq_left (le_of_not_lt (by assumption))).symm

/-- On nonnegative scores, the `forEach` maximum (which starts from 0) is
the maximum of the seven score values. -/
theorem dominantOf_eq_listMax (s : EmotionScores) (hn : ∀ e, 0 ≤ s.get e) :
    (dominantOf s).2 = (match emotionLabels.map s.get with
      | [] => 0
      | v :: vs => vs.foldl max v) := by
  have h1 : 0 ≤ s.neutral := hn .neutral
  rw [dominantOf, foldl_dom_snd]
  simp only [detectEntries, emotionLabels, List.foldl_cons, List.foldl_nil,
    List.map_cons, List.map_nil, EmotionScores.get]
  rw [max_eq_right h1]
  simp [max_comm, max_assoc, max_left_comm]

/-- Claim C2: the calibrated confidence computed by `detectEmotion`
(`forEach` maximum fed into `adjustConfidence`) equals the spec's formula —
raw confidence = maximum score, gap bonus = (highest − second highest) × 0.3,
stability bonus from the last five history entries, sub-0.6 fold to
`max 0.3 (0.8 × adjusted)`, final clamp — and always lies in
`[0.1, 0.95]`. -/
theorem claim_C2 (s : EmotionScores) (history : List EmotionHistoryEntry)
    (hn : ∀ e, 0 ≤ s.get e) :
    calibratedConfidence s history = specCalibratedConfidence s history
    ∧ (1/10 : ℚ) ≤ calibratedConfidence s history
    ∧ calibratedConfidence s history ≤ 19/20 := by
  refine ⟨?_, ?_, ?_⟩
  · rw [calibratedConfidence, dominantOf_eq_listMax s hn]
    rfl
  · rw [calibratedConfidence, adjustConfidence]
    refine le_trans (by norm_num) (le_max_left _ _)
  · rw [calibratedConfidence, adjustConfidence]
    refine max_le (by norm_num) (le_trans (min_le_left _ _) (by norm_num))

/-- Witness for C2: `claim_C2` at the uniform score map and empty history. -/
theorem claim_C2_witness :
    calibratedConfidence uniformScores [] = specCalibratedConfidence uniformScores []
    ∧ (1/10 : ℚ) ≤ calibratedConfidence uniformScores []
    ∧ calibratedConfidence uniformScores [] ≤ 19/20 := by
  apply claim_C2
  intro e
  cases e <;> norm_num [EmotionScores.get, uniformScores]

/-- Closed form of the fusion result in the agreement branch. -/
theorem analyzeEmotions_agree (mp : EmotionState) (t : FaceExpressions)
    (hagree : mp.dominant = emotionMapping (t.getDominantExpression).1) :
    analyzeEmotions mp (some t) =
      { primary := mp
        secondary := none
        confidence := min ((mp.confidence + (t.getDominantExpression).2) / 2 + 0.15) 1
        reliability := getReliabilityLevel
          (min ((mp.confidence + (t.getDominantExpression).2) / 2 + 0.15) 1)
        sourceMediapipe := true
        sourceTensorflow := true } := by
  rw [analyzeEmotions]
  try dsimp only
  rw [if_pos hagree]

/-- Claim C3: when the mapped dominant label of the secondary distribution
equals the primary label, the fused confidence is
`min((primary + secondaryDominant)/2 + 0.15, 1)`, the result's primary is the
original primary, and the reliability tier is high at ≥ 0.8, medium at ≥ 0.6,
low otherwise.  (The concrete 0.70/0.90 "happy" instance is the witness.) -/
theorem claim_C3 (mp : EmotionState) (t : FaceExpressions)
    (hagree : mp.dominant = emotionMapping (t.getDominantExpression).1) :
    (analyzeEmotions mp (some t)).confidence
        = min ((mp.confidence + (t.getDominantExpression).2) / 2 + 0.15) 1
    ∧ (analyzeEmotions mp (some t)).primary = mp
    ∧ (analyzeEmotions mp (some t)).reliability
        = (if (0.8 : ℚ) ≤ (analyzeEmotions mp (some t)).confidence then Reliability.high
           else if (0.6 : ℚ) ≤ (analyzeEmotions mp (some t)).confidence then Reliability.medium
           else Reliability.low) := by
  rw [analyzeEmotions_agree mp t hagree]
  exact ⟨rfl, rfl, rfl⟩

/-- Witness for C3: primary 0.70 "happy" against a secondary whose mapped
dominant is 0.90 "happy" fuses to confidence 0.95 with high reliability. -/
theorem claim_C3_witness :
    (analyzeEmotions ⟨"happy", 0.7, ⟨0, 0, 0, 0, 0, 0, 0⟩⟩
        (some ⟨0, 0.9, 0, 0, 0, 0, 0⟩)).confidence = 0.95
    ∧ (analyzeEmotions ⟨"happy", 0.7, ⟨0, 0, 0, 0, 0, 0, 0⟩⟩
        (some ⟨0, 0.9, 0, 0, 0, 0, 0⟩)).primary
          = (⟨"happy", 0.7, ⟨0, 0, 0, 0, 0, 0, 0⟩⟩ : EmotionState)
    ∧ (analyzeEmotions ⟨"happy", 0.7, ⟨0, 0, 0, 0, 0, 0, 0⟩⟩
        (some ⟨0, 0.9, 0, 0, 0, 0, 0⟩)).reliability = Reliability.high := by
  have hdom : (⟨0, 0.9, 0, 0, 0, 0, 0⟩ : FaceExpressions).getDominantExpression
      = ("happy", 0.9) := by
    simp [FaceExpressions.getDominantExpression, FaceExpressions.prob]
    try norm_num
  have hagree : (⟨"happy", 0.7, ⟨0, 0, 0, 0, 0, 0, 0⟩⟩ : EmotionState).dominant
      = emotionMapping ((⟨0, 0.9, 0, 0, 0, 0, 0⟩ : FaceExpressions).getDominantExpression).1 := by
    rw [hdom]
    simp [emotionMapping]
  obtain ⟨h1, h2, h3⟩ := claim_C3 ⟨"happy", 0.7, ⟨0, 0, 0, 0, 0, 0, 0⟩⟩
    ⟨0, 0.9, 0, 0, 0, 0, 0⟩ hagree
  rw [hdom] at h1
  have hconf : (analyzeEmotions ⟨"happy", 0.7, ⟨0, 0, 0, 0, 0, 0, 0⟩⟩
      (some ⟨0, 0.9, 0, 0, 0, 0, 0⟩)).confidence = 0.95 := by
    rw [h1]
    norm_num
  refine ⟨hconf, h2, ?_⟩
  rw [h3, hconf]
  norm_num

/-- Closed form of the fusion result in the large-disagreement branch. -/
theorem analyzeEmotions_disagreeLarge (mp : EmotionState) (t : FaceExpressions)
    (hdis : ¬ mp.dominant = emotionMapping (t.getDominantExpression).1)
    (hgap : (0.3 : ℚ) < |mp.confidence - (t.getDominantExpression).2|) :
    analyzeEmotions mp (some t) =
      (if mp.confidence < (t.getDominantExpression).2 then
        { primary := createEmotionStateFromTensorFlow t
          secondary := some mp
          confidence := max mp.confidence (t.getDominantExpression).2
          reliability := getReliabilityLevel
            (max mp.confidence (t.getDominantExpression).2 * 0.8)
          sourceMediapipe := true
          sourceTensorflow := true }
      else
        { primary := mp
          secondary := none
          confidence := max mp.confidence (t.getDominantExpression).2
          reliability := getReliabilityLevel
            (max mp.confidence (t.getDominantExpression).2 * 0.8)
          sourceMediapipe := true
          sourceTensorflow := true }) := by
  rw [analyzeEmotions]
  try dsimp only
  rw [if_neg hdis, if_pos hgap]

/-- Claim C4 (amended): on large disagreement the fused confidence is the
larger of the two confidences and the reliability tier is computed from
`fusedConfidence × 0.8`; when the secondary side is the more confident one it
becomes the result's primary and the original primary becomes the result's
secondary, but when the original primary is the more confident one the result
keeps it as primary and carries *no* secondary (the source only assigns
`result.secondary` in the tensorflow-wins branch). -/
theorem claim_C4 (mp : EmotionState) (t : FaceExpressions)
    (hdis : ¬ mp.dominant = emotionMapping (t.getDominantExpression).1)
    (hgap : (0.3 : ℚ) < |mp.confidence - (t.getDominantExpression).2|) :
    (analyzeEmotions mp (some t)).confidence
        = max mp.confidence (t.getDominantExpression).2
    ∧ (analyzeEmotions mp (some t)).reliability
        = getReliabilityLevel ((analyzeEmotions mp (some t)).confidence * 0.8)
    ∧ (mp.confidence < (t.getDominantExpression).2 →
        (analyzeEmotions mp (some t)).primary = createEmotionStateFromTensorFlow t
        ∧ (analyzeEmotions mp (some t)).secondary = some mp)
    ∧ (¬ mp.confidence < (t.getDominantExpression).2 →
        (analyzeEmotions mp (some t)).primary = mp
        ∧ (analyzeEmotions mp (some t)).secondary = none) := by
  rw [analyzeEmotions_disagreeLarge mp t hdis hgap]
  by_cases hc : mp.confidence < (t.getDominantExpression).2
  · rw [if_pos hc]
    exact ⟨rfl, rfl, fun _ => ⟨rfl, rfl⟩, fun hc2 => absurd hc hc2⟩
  · rw [if_neg hc]
    exact ⟨rfl, rfl, fun hc2 => absurd hc2 hc, fun _ => ⟨rfl, rfl⟩⟩

/-- Counterexample for C4 as frozen: primary "sad" at confidence 0.9 against
secondary dominant "happy" at 0.5 is a large disagreement (gap 0.4 > 0.3)
won by the primary, yet the result carries no secondary at all — the claim's
"the other side becomes the result's secondary" fails in this direction. -/
theorem claim_C4_counterexample :
    (⟨"sad", 0.9, ⟨0, 0, 0, 0, 0, 0, 0⟩⟩ : EmotionState).dominant
        ≠ emotionMapping ((⟨0, 0.5, 0, 0, 0, 0, 0⟩ : FaceExpressions).getDominantExpression).1
    ∧ (0.3 : ℚ) < |(⟨"sad", 0.9, ⟨0, 0, 0, 0, 0, 0, 0⟩⟩ : EmotionState).confidence
        - ((⟨0, 0.5, 0, 0, 0, 0, 0⟩ : FaceExpressions).getDominantExpression).2|
    ∧ (analyzeEmotions ⟨"sad", 0.9, ⟨0, 0, 0, 0, 0, 0, 0⟩⟩
        (some ⟨0, 0.5, 0, 0, 0, 0, 0⟩)).secondary = none := by
  have hdom : (⟨0, 0.5, 0, 0, 0, 0, 0⟩ : FaceExpressions).getDominantExpression
      = ("happy", 0.5) := by
    simp [FaceExpressions.getDominantExpression, FaceExpressions.prob]
    try norm_num
  have hdis : (⟨"sad", 0.9, ⟨0, 0, 0, 0, 0, 0, 0⟩⟩ : EmotionState).dominant
      ≠ emotionMapping ((⟨0, 0.5, 0, 0, 0, 0, 0⟩ : FaceExpressions).getDominantExpression).1 := by
    rw [hdom]
    simp [emotionMapping]
  have hgap : (0.3 : ℚ) < |(⟨"sad", 0.9, ⟨0, 0, 0, 0, 0, 0, 0⟩⟩ : EmotionState).confidence
      - ((⟨0, 0.5, 0, 0, 0, 0, 0⟩ : FaceExpressions).getDominantExpression).2| := by
    rw [hdom]
    have habs : |(0.9 : ℚ) - 0.5| = 0.4 := by
      rw [show (0.9 : ℚ) - 0.5 = 0.4 by norm_num]
      exact abs_of_nonneg (by norm_num)
    show (0.3 : ℚ) < |(0.9 : ℚ) - 0.5|
    rw [habs]
    norm_num
  have hnlt : ¬ (⟨"sad", 0.9, ⟨0, 0, 0, 0, 0, 0, 0⟩⟩ : EmotionState).confidence
      < ((⟨0, 0.5, 0, 0, 0, 0, 0⟩ : FaceExpressions).getDominantExpression).2 := by
    rw [hdom]
    norm_num
  refine ⟨hdis, hgap, ?_⟩
  rw [analyzeEmotions_disagreeLarge _ _ hdis hgap, if_neg hnlt]

/-- Witness for C4 (amended), at the spec's own scenario: primary 0.50 "sad"
against secondary dominant 0.90 "happy" — the secondary side wins, becomes
the result's primary, the original primary becomes the secondary, the fused
confidence is 0.90 and the reliability tier of 0.90 × 0.8 = 0.72 is
medium. -/
theorem claim_C4_witness :
    (analyzeEmotions ⟨"sad", 0.5, ⟨0, 0, 0, 0, 0, 0, 0⟩⟩
        (some ⟨0, 0.9, 0, 0, 0, 0, 0⟩)).confidence = 0.9
    ∧ (analyzeEmotions ⟨"sad", 0.5, ⟨0, 0, 0, 0, 0, 0, 0⟩⟩
        (some ⟨0, 0.9, 0, 0, 0, 0, 0⟩)).primary.dominant = "happy"
    ∧ (analyzeEmotions ⟨"sad", 0.5, ⟨0, 0, 0, 0, 0, 0, 0⟩⟩
        (some ⟨0, 0.9, 0, 0, 0, 0, 0⟩)).secondary
          = some ⟨"sad", 0.5, ⟨0, 0, 0, 0, 0, 0, 0⟩⟩
    ∧ (analyzeEmotions ⟨"sad", 0.5, ⟨0, 0, 0, 0, 0, 0, 0⟩⟩
        (some ⟨0, 0.9, 0, 0, 0, 0, 0⟩)).reliability = Reliability.medium := by
  have hdom : (⟨0, 0.9, 0, 0, 0, 0, 0⟩ : FaceExpressions).getDominantExpression
      = ("happy", 0.9) := by
    simp [FaceExpressions.getDominantExpression, FaceExpressions.prob]
    try norm_num
  have hdis : (⟨"sad", 0.5, ⟨0, 0, 0, 0, 0, 0, 0⟩⟩ : EmotionState).dominant
      ≠ emotionMapping ((⟨0, 0.9, 0, 0, 0, 0, 0⟩ : FaceExpressions).getDominantExpression).1 := by
    rw [hdom]
    simp [emotionMapping]
  have hgap : (0.3 : ℚ) < |(⟨"sad", 0.5, ⟨0, 0, 0, 0, 0, 0, 0⟩⟩ : EmotionState).confidence
      - ((⟨0, 0.9, 0, 0, 0, 0, 0⟩ : FaceExpressions).getDominantExpression).2| := by
    rw [hdom]
    have habs : |(0.5 : ℚ) - 0.9| = 0.4 := by
      rw [show (0.5 : ℚ) - 0.9 = -(0.4 : ℚ) by norm_num]
      rw [abs_neg]
      exact abs_of_nonneg (by norm_num)
    show (0.3 : ℚ) < |(0.5 : ℚ) - 0.9|
    rw [habs]
    norm_num
  obtain ⟨h1, h2, h3, _⟩ := claim_C4 ⟨"sad", 0.5, ⟨0, 0, 0, 0, 0, 0, 0⟩⟩
    ⟨0, 0.9, 0, 0, 0, 0, 0⟩ hdis hgap
  have hlt : (⟨"sad", 0.5, ⟨0, 0, 0, 0, 0, 0, 0⟩⟩ : EmotionState).confidence
      < ((⟨0, 0.9, 0, 0, 0, 0, 0⟩ : FaceExpressions).getDominantExpression).2 := by
    rw [hdom]
    norm_num
  obtain ⟨hp, hs⟩ := h3 hlt
  have hconf : (analyzeEmotions ⟨"sad", 0.5, ⟨0, 0, 0, 0, 0, 0, 0⟩⟩
      (some ⟨0, 0.9, 0, 0, 0, 0, 0⟩)).confidence = 0.9 := by
    rw [h1, hdom]
    norm_num [max_eq_right]
  refine ⟨hconf, ?_, hs, ?_⟩
  · rw [hp]
    rw [createEmotionStateFromTensorFlow, hdom]
    simp [emotionMapping]
  · rw [h2, hconf]
    norm_num [getReliabilityLevel]

/-- Claim C5: `applySmoothingFilter` pushes the new scores, evicts the oldest
entry exactly when the window was full (so the window stays within capacity
5), returns the input unchanged while the window holds at most one entry, and
otherwise returns, per label, `Σ weight(i)·entry_i[label] / Σ weight(i)` with
`weight(i) = (i+1)/N` over the post-push window of length `N` (index 0 oldest,
`N−1` newest). -/
theorem claim_C5 (buffer : List EmotionScores) (cur : EmotionScores)
    (hlen : buffer.length ≤ bufferSize) :
    pushSmoothing buffer cur
        = (if buffer.length = bufferSize then buffer.drop 1 else buffer) ++ [cur]
    ∧ (pushSmoothing buffer cur).length ≤ bufferSize
    ∧ (applySmoothingFilter buffer cur).2 = pushSmoothing buffer cur
    ∧ ((pushSmoothing buffer cur).length ≤ 1 → (applySmoothingFilter buffer cur).1 = cur)
    ∧ (1 < (pushSmoothing buffer cur).length → ∀ e,
        (applySmoothingFilter buffer cur).1.get e
          = (((List.range (pushSmoothing buffer cur).length).map (fun (i : Nat) =>
              ((pushSmoothing buffer cur).getD i default).get e
                * (((i : ℚ) + 1) / ((pushSmoothing buffer cur).length : ℚ)))).sum)
            / (((List.range (pushSmoothing buffer cur).length).map (fun (i : Nat) =>
              ((i : ℚ) + 1) / ((pushSmoothing buffer cur).length : ℚ))).sum)) := by
  have hbs : bufferSize = 5 := rfl
  have hpush : pushSmoothing buffer cur
      = (if buffer.length = bufferSize then buffer.drop 1 else buffer) ++ [cur] := by
    rw [pushSmoothing]
    try dsimp only
    by_cases h5 : buffer.length = bufferSize
    · rw [if_pos (by simp only [List.length_append, List.length_cons, List.length_nil]; omega),
        if_pos h5]
      exact List.drop_append_of_le_length (by omega)
    · rw [if_neg (by simp only [List.length_append, List.length_cons, List.length_nil]; omega),
        if_neg h5]
  refine ⟨hpush, ?_, ?_, ?_, ?_⟩
  · rw [hpush]
    by_cases h5 : buffer.length = bufferSize
    · rw [if_pos h5]
      simp only [List.length_append, List.length_drop, List.length_cons, List.length_nil]
      omega
    · rw [if_neg h5]
      simp only [List.length_append, List.length_cons, List.length_nil]
      omega
  · rw [applySmoothingFilter]
    try dsimp only
    split <;> rfl
  · intro h1
    rw [applySmoothingFilter]
    try dsimp only
    rw [if_neg (by omega)]
  · intro h1 e
    rw [applySmoothingFilter]
    try dsimp only
    rw [if_pos h1, get_ofFun, smoothWeighted_eq]

/-- Witness for C5: `claim_C5` at the empty window — the pushed window holds
the single new entry and the smoother returns it unchanged. -/
theorem claim_C5_witness :
    pushSmoothing [] uniformScores
        = (if List.length ([] : List EmotionScores) = bufferSize
            then List.drop 1 ([] : List EmotionScores) else []) ++ [uniformScores]
    ∧ (pushSmoothing [] uniformScores).length ≤ bufferSize
    ∧ (applySmoothingFilter [] uniformScores).2 = pushSmoothing [] uniformScores
    ∧ ((pushSmoothing [] uniformScores).length ≤ 1 →
        (applySmoothingFilter [] uniformScores).1 = uniformScores)
    ∧ (1 < (pushSmoothing [] uniformScores).length → ∀ e,
        (applySmoothingFilter [] uniformScores).1.get e
          = (((List.range (pushSmoothing [] uniformScores).length).map (fun (i : Nat) =>
              ((pushSmoothing [] uniformScores).getD i default).get e
                * (((i : ℚ) + 1) / ((pushSmoothing [] uniformScores).length : ℚ)))).sum)
            / (((List.range (pushSmoothing [] uniformScores).length).map (fun (i : Nat) =>
              ((i : ℚ) + 1) / ((pushSmoothing [] uniformScores).length : ℚ))).sum)) :=
  claim_C5 [] uniformScores (by simp [bufferSize])

/-- Fold invariant of `updateEmotionHistory`: starting below capacity, the
buffer after appending a whole list is the suffix of the appended stream that
fits into the capacity. -/
theorem foldl_updateHistory (l : List EmotionHistoryEntry) (acc : List EmotionHistoryEntry)
    (hacc : acc.length ≤ maxHistorySize) :
    l.foldl updateEmotionHistory acc
      = (acc ++ l).drop (acc.length + l.length - min (acc.length + l.length) maxHistorySize) := by
  have hms : maxHistorySize = 100 := rfl
  induction l generalizing acc with
  | nil =>
    simp only [List.foldl_nil, List.append_nil, List.length_nil, Nat.add_zero]
    rw [min_eq_left hacc, Nat.sub_self, List.drop_zero]
  | cons e t ih =>
    rw [List.foldl_cons]
    have hstep : updateEmotionHistory acc e
        = if maxHistorySize < acc.length + 1 then (acc ++ [e]).drop 1 else acc ++ [e] := by
      rw [updateEmotionHistory]
      try dsimp only
      simp only [List.length_append, List.length_cons, List.length_nil]
    by_cases hc : acc.length = maxHistorySize
    · have hstep2 : updateEmotionHistory acc e = (acc ++ [e]).drop 1 := by
        rw [hstep, if_pos (by omega)]
      have hlen2 : ((acc ++ [e]).drop 1).length ≤ maxHistorySize := by
        simp only [List.length_drop, List.length_append, List.length_cons, List.length_nil]
        omega
      rw [hstep2, ih _ hlen2]
      have hD : ((acc ++ [e]).drop 1) ++ t = (acc ++ e :: t).drop 1 := by
        rw [← List.drop_append_of_le_length
          (by simp only [List.length_append, List.length_cons, List.length_nil]; omega)]
        congr 1
        simp
      rw [hD, List.drop_drop]
      congr 1
      simp only [List.length_drop, List.length_append, List.length_cons, List.length_nil]
      omega
    · have hstep2 : updateEmotionHistory acc e = acc ++ [e] := by
        rw [hstep, if_neg (by omega)]
      have hlen2 : (acc ++ [e]).length ≤ maxHistorySize := by
        simp only [List.length_append, List.length_cons, List.length_nil]
        omega
      rw [hstep2, ih _ hlen2, List.append_assoc]
      congr 1
      simp only [List.singleton_append, List.length_append, List.length_cons, List.length_nil]
      omega

/-- Claim C6: starting from the empty detector, appending 150 predictions
through `updateEmotionHistory` leaves the history with length exactly 100,
holding exactly the 100 most recently appended entries in insertion order
(i.e. the stream with its first 50 entries dropped). -/
theorem claim_C6 (entries : List EmotionHistoryEntry) (hlen : entries.length = 150) :
    (entries.foldl updateEmotionHistory []).length = 100
    ∧ entries.foldl updateEmotionHistory [] = entries.drop 50 := by
  have h := foldl_updateHistory entries [] (by simp [maxHistorySize])
  simp only [List.nil_append, List.length_nil, Nat.zero_add] at h
  rw [hlen] at h
  norm_num [maxHistorySize] at h
  refine ⟨?_, h⟩
  rw [h]
  simp [hlen]

/-- Witness for C6: `claim_C6` at 150 concrete entries. -/
theorem claim_C6_witness :
    (sampleEntries.foldl updateEmotionHistory []).length = 100
    ∧ sampleEntries.foldl updateEmotionHistory [] = sampleEntries.drop 50 :=
  claim_C6 sampleEntries (by rw [sampleEntries, List.length_map, List.length_range])

/-- Membership in the interior-pixel list is exactly the loop bounds of the
gradient pass. -/
theorem mem_interiorPixels (f : Frame) (x y : Nat) :
    (x, y) ∈ interiorPixels f
      ↔ (1 ≤ x ∧ x < 1 + (f.width - 2)) ∧ (1 ≤ y ∧ y < 1 + (f.height - 2)) := by
  rw [interiorPixels]
  simp only [List.mem_flatMap, List.mem_map, List.mem_range'_1, Prod.mk.injEq]
  constructor
  · rintro ⟨y', hy, x', hx, hxx, hyy⟩
    rw [← hxx, ← hyy]
    exact ⟨hx, hy⟩
  · rintro ⟨hx, hy⟩
    exact ⟨y, hy, x, hx, rfl, rfl⟩

/-- Claim C7: an interior pixel is counted as an edge exactly when its Sobel
gradient magnitude `sqrt(gx² + gy²)` is strictly greater than 30; a magnitude
of exactly 30 is not counted, and one of exactly 30.0001 is — for every
frame and interior pixel. -/
theorem claim_C7 (f : Frame) (x y : Nat) (hx1 : 1 ≤ x) (hx2 : x + 1 < f.width)
    (hy1 : 1 ≤ y) (hy2 : y + 1 < f.height) :
    ((x, y) ∈ edgePixels f ↔ (30 : ℝ) < Real.sqrt ((gradSq f x y : ℚ) : ℝ))
    ∧ (Real.sqrt ((gradSq f x y : ℚ) : ℝ) = 30 → (x, y) ∉ edgePixels f)
    ∧ (Real.sqrt ((gradSq f x y : ℚ) : ℝ) = 30.0001 → (x, y) ∈ edgePixels f) := by
  have hmem : (x, y) ∈ interiorPixels f := by
    rw [mem_interiorPixels]
    omega
  have hgs : (0 : ℚ) ≤ gradSq f x y := by
    rw [gradSq]
    positivity
  have hgsR : (0 : ℝ) ≤ ((gradSq f x y : ℚ) : ℝ) := by exact_mod_cast hgs
  have hiff : ((x, y) ∈ edgePixels f ↔ (900 : ℚ) < gradSq f x y) := by
    rw [edgePixels, List.mem_filter]
    constructor
    · rintro ⟨_, hp⟩
      simpa [isEdgePixel] using hp
    · intro h900
      refine ⟨hmem, ?_⟩
      simpa [isEdgePixel] using h900
  have hsqrt : ((30 : ℝ) < Real.sqrt ((gradSq f x y : ℚ) : ℝ) ↔ (900 : ℚ) < gradSq f x y) := by
    rw [Real.lt_sqrt (by norm_num)]
    rw [show ((30 : ℝ) ^ 2) = (((900 : ℚ) : ℝ)) by norm_num]
    exact Rat.cast_lt
  refine ⟨hiff.trans hsqrt.symm, ?_, ?_⟩
  · intro h30
    have h900 : gradSq f x y = 900 := by
      have h3 := congrArg (fun z => z ^ 2) h30
      simp only at h3
      rw [Real.sq_sqrt hgsR] at h3
      have h4 : ((gradSq f x y : ℚ) : ℝ) = ((900 : ℚ) : ℝ) := by
        rw [h3]
        norm_num
      exact_mod_cast h4
    intro hmem2
    rw [hiff, h900] at hmem2
    exact lt_irrefl _ hmem2
  · intro h30001
    have hq : gradSq f x y = (300001 / 10000 : ℚ) ^ 2 := by
      have h3 := congrArg (fun z => z ^ 2) h30001
      simp only at h3
      rw [Real.sq_sqrt hgsR] at h3
      have h4 : ((gradSq f x y : ℚ) : ℝ) = (((300001 / 10000 : ℚ) ^ 2 : ℚ) : ℝ) := by
        rw [h3]
        norm_num
      exact_mod_cast h4
    rw [hiff, hq]
    norm_num

/-- Witness for C7: on `frameA` the interior pixel (1, 1) has gradient
magnitude exactly 30 and is not counted; on `frameB` it has magnitude
exactly 30.0001 and is counted. -/
theorem claim_C7_witness :
    (1, 1) ∉ edgePixels frameA ∧ (1, 1) ∈ edgePixels frameB := by
  have hgA : gradSq frameA 1 1 = 900 := by
    norm_num [gradSq, sobelGx, sobelGy, px, frameA]
  have hgB : gradSq frameB 1 1 = (300001 / 10000 : ℚ) ^ 2 := by
    norm_num [gradSq, sobelGx, sobelGy, px, frameB]
    try ring
  constructor
  · refine (claim_C7 frameA 1 1 (by norm_num) (by norm_num [frameA])
      (by norm_num) (by norm_num [frameA])).2.1 ?_
    rw [hgA]
    rw [show (((900 : ℚ) : ℝ)) = (30 : ℝ) ^ 2 by norm_num]
    exact Real.sqrt_sq (by norm_num)
  · refine (claim_C7 frameB 1 1 (by norm_num) (by norm_num [frameB])
      (by norm_num) (by norm_num [frameB])).2.2 ?_
    rw [hgB]
    rw [show ((((300001 / 10000 : ℚ) ^ 2 : ℚ) : ℝ)) = (30.0001 : ℝ) ^ 2 by norm_num]
    exact Real.sqrt_sq (by norm_num)

/-- Claim C8: the `FaceExpressions` constructor fails hard on any probability
array whose length is not 7, and on length exactly 7 it sets each of the
seven label fields to the probability at that label's index in
`FACE_EXPRESSION_LABELS` order. -/
theorem claim_C8 (probabilities : List ℚ) :
    (probabilities.length ≠ 7 → (FaceExpressions.make probabilities).isOk = false)
    ∧ (probabilities.length = 7 → FaceExpressions.make probabilities
        = .ok ⟨probabilities.getD 0 0, probabilities.getD 1 0, probabilities.getD 2 0,
            probabilities.getD 3 0, probabilities.getD 4 0, probabilities.getD 5 0,
            probabilities.getD 6 0⟩) := by
  constructor
  · intro h
    rw [FaceExpressions.make, if_pos h]
    try rfl
  · intro h
    rw [FaceExpressions.make, if_neg (fun hne => hne h)]
    try rfl

/-- Witness for C8: a length-3 vector is rejected; a length-7 vector fills
the fields in label order. -/
theorem claim_C8_witness :
    (FaceExpressions.make [1/2, 1/2, 0]).isOk = false
    ∧ FaceExpressions.make [1, 0, 0, 0, 0, 0, 0] = .ok ⟨1, 0, 0, 0, 0, 0, 0⟩ := by
  constructor
  · exact (claim_C8 [1/2, 1/2, 0]).1 (by norm_num)
  · have h := (claim_C8 [1, 0, 0, 0, 0, 0, 0]).2 rfl
    rw [h]
    try rfl

/-- Claim C9 (amended): steady-state `detectEmotion` is total — every input,
including a faulting analysis stage, yields an `EmotionPrediction` — and on
an internal fault the returned prediction is exactly the bare record
`{emotion := neutral, confidence := 0.5, timestamp := now}` (a confidence in
the engine's low tier); no diagnostic-flag field exists on the returned
value. -/
theorem claim_C9 (st : DetectorState) (msg : String) (now : ℚ) :
    (detectEmotion st (.error msg) now).1
        = { emotion := "neutral", confidence := 0.5, timestamp := now }
    ∧ getReliabilityLevel (detectEmotion st (.error msg) now).1.confidence
        = Reliability.low := by
  refine ⟨rfl, ?_⟩
  show getReliabilityLevel 0.5 = Reliability.low
  norm_num [getReliabilityLevel]

/-- Counterexample for C9 as frozen: at a concrete faulting input the
returned prediction is byte-for-byte the three-field record
`⟨"neutral", 0.5, 0⟩` — `EmotionPrediction` has only the fields `emotion`,
`confidence` and `timestamp`, so the prediction carries no diagnostic flag,
and its confidence is the fixed 0.5 rather than a flagged low value. -/
theorem claim_C9_counterexample :
    (detectEmotion initialDetectorState (.error "internal fault") 0).1
      = { emotion := "neutral", confidence := 0.5, timestamp := 0 } := rfl

/-- Fresh allocation reads back what was stored. -/
theorem readRef_fresh (h : Heap) (v : List EmotionHistoryEntry) :
    readRef (h ++ [v]) h.length = v := by
  simp [readRef, List.getD_eq_getElem?_getD]

/-- Writing one cell leaves every other cell unchanged. -/
theorem readRef_set_ne (h : Heap) (r q : HRef) (v : List EmotionHistoryEntry)
    (hne : r ≠ q) : readRef (h.set r v) q = readRef h q := by
  simp [readRef, List.getD_eq_getElem?_getD, List.getElem?_set_ne hne]

/-- Allocating at the end leaves every existing cell unchanged. -/
theorem readRef_append_lt (h : Heap) (v : List EmotionHistoryEntry) (q : HRef)
    (hq : q < h.length) : readRef (h ++ [v]) q = readRef h q := by
  rw [readRef, readRef, List.getD_append _ _ _ _ hq]

/-- Claim C10: `getEmotionHistory` returns a fresh copy of the history
buffer — the returned array's contents equal the buffer at call time, the
detector state and every existing heap cell are left unchanged, the returned
reference is not the internal one, and mutating the returned array (push or
pop) leaves the internal buffer — hence the input of any later
`getEmotionHistory` or `getEmotionAnalytics` call — unchanged; a later
`getEmotionHistory` after such a mutation still returns the original
contents. -/
theorem claim_C10 (st : DetectorRefState) (h : Heap) (entry : EmotionHistoryEntry)
    (hv : st.historyRef < h.length) :
    (getEmotionHistory st h).2.1 = st
    ∧ (getEmotionHistory st h).1 ≠ st.historyRef
    ∧ readRef (getEmotionHistory st h).2.2 (getEmotionHistory st h).1
        = readRef h st.historyRef
    ∧ (∀ q, q < h.length → readRef (getEmotionHistory st h).2.2 q = readRef h q)
    ∧ readRef (pushRef (getEmotionHistory st h).2.2 (getEmotionHistory st h).1 entry)
        st.historyRef = readRef h st.historyRef
    ∧ readRef (popRef (getEmotionHistory st h).2.2 (getEmotionHistory st h).1)
        st.historyRef = readRef h st.historyRef
    ∧ readRef (getEmotionHistory st
          (pushRef (getEmotionHistory st h).2.2 (getEmotionHistory st h).1 entry)).2.2
        (getEmotionHistory st
          (pushRef (getEmotionHistory st h).2.2 (getEmotionHistory st h).1 entry)).1
        = readRef h st.historyRef := by
  have hne : h.length ≠ st.historyRef := Ne.symm (Nat.ne_of_lt hv)
  have hpush : readRef (pushRef (getEmotionHistory st h).2.2 (getEmotionHistory st h).1 entry)
      st.historyRef = readRef h st.historyRef := by
    rw [getEmotionHistory]
    rw [pushRef]
    rw [readRef_set_ne _ _ _ _ hne]
    exact readRef_append_lt h _ _ hv
  refine ⟨rfl, hne, readRef_fresh h _, ?_, hpush, ?_, ?_⟩
  · intro q hq
    exact readRef_append_lt h _ q hq
  · rw [getEmotionHistory]
    rw [popRef]
    rw [readRef_set_ne _ _ _ _ hne]
    exact readRef_append_lt h _ _ hv
  · rw [getEmotionHistory]
    rw [readRef_fresh]
    exact hpush

/-- Witness for C10: `claim_C10` at a one-cell heap holding a one-entry
buffer, with the preserved-cell conjunct instantiated at the internal
reference itself. -/
theorem claim_C10_witness :
    (getEmotionHistory ⟨0⟩ [[⟨"happy", 1/2, 0, default⟩]]).2.1 = (⟨0⟩ : DetectorRefState)
    ∧ (getEmotionHistory ⟨0⟩ [[⟨"happy", 1/2, 0, default⟩]]).1 ≠ 0
    ∧ readRef (getEmotionHistory ⟨0⟩ [[⟨"happy", 1/2, 0, default⟩]]).2.2
        (getEmotionHistory ⟨0⟩ [[⟨"happy", 1/2, 0, default⟩]]).1
        = [⟨"happy", 1/2, 0, default⟩]
    ∧ readRef (getEmotionHistory ⟨0⟩ [[⟨"happy", 1/2, 0, default⟩]]).2.2 0
        = [⟨"happy", 1/2, 0, default⟩]
    ∧ readRef (pushRef (getEmotionHistory ⟨0⟩ [[⟨"happy", 1/2, 0, default⟩]]).2.2
        (getEmotionHistory ⟨0⟩ [[⟨"happy", 1/2, 0, default⟩]]).1
        ⟨"sad", 1/4, 1, default⟩) 0
        = [⟨"happy", 1/2, 0, default⟩] := by
  obtain ⟨h1, h2, h3, h4, h5, _, _⟩ := claim_C10 ⟨0⟩ [[⟨"happy", 1/2, 0, default⟩]]
    ⟨"sad", 1/4, 1, default⟩ (by decide)
  have hread : readRef [[(⟨"happy", 1/2, 0, default⟩ : EmotionHistoryEntry)]] 0
      = [⟨"happy", 1/2, 0, default⟩] := rfl
  exact ⟨h1, h2, by rw [h3, hread], by rw [h4 0 (by decide), hread], by rw [h5, hread]⟩

end EmotionCore
